import Mathlib

/-!
Verification of the login-authentication backend and its client-side
simulation frontend.

The backend (an Express app) exposes `POST /api/signup` and
`POST /api/login` over two flat JSON documents: a username → credential
mapping (`users.json`) and an append-only array of login attempts
(`loginLogs.json`).  The handlers are embedded below as pure functions on
an explicit `ServerState`, additionally returning the trace of file
operations performed, in source order.  Randomness of bcrypt salt
generation and the wall clock are passed in as explicit arguments.

JavaScript semantics that matter for the embedding and are modelled
explicitly:
  * `users[username]` is a full property lookup: an own property first,
    then the properties inherited from `Object.prototype`
    (e.g. `users["constructor"]` is a truthy function on a fresh object).
  * `bcrypt.compareSync(password, hash)` of the bcryptjs library throws
    an `Illegal arguments` error when `hash` is not a string, which
    happens exactly when the lookup found an inherited prototype
    property, whose `.passwordHash` field is `undefined`.
  * `req.body || \x7b\x7d` replaces an absent (falsy) body by an empty
    object; destructuring a truthy non-object value yields `undefined`
    for both fields.
-/

/-- Idealised model of a bcrypt hash string produced by
`bcrypt.hashSync(password, salt)`: the salt together with a digest.  The
digest is idealised as an injective image of the password, so that
`compareSync` is exact; no other property of bcrypt is used. -/
structure BcryptHash where
  salt : String
  digest : String
deriving DecidableEq, Repr

/-- Model of `bcrypt.hashSync(password, salt)`. -/
def hashSync (password salt : String) : BcryptHash :=
  ⟨salt, password⟩

/-- Model of `bcrypt.compareSync(password, hash)` on a genuine hash
string: true exactly when the password hashes (under the hash's own
salt) to the stored hash. -/
def compareSync (password : String) (h : BcryptHash) : Bool :=
  h.digest == password

/-- A stored credential record, as written by the signup handler:
`users[username] = \x7b passwordHash, createdAt \x7d`. -/
structure Cred where
  passwordHash : BcryptHash
  createdAt : String
deriving DecidableEq, Repr

/-- An attempt log entry, as pushed by the login handler:
`\x7b username, date, success \x7d`.  By construction it holds exactly a
username string, a timestamp string and a success boolean. -/
structure LogEntry where
  username : String
  date : String
  success : Bool
deriving DecidableEq, Repr

/-- The persisted state: the contents of `users.json` (an object in
insertion order, modelled as an association list) and of
`loginLogs.json` (an array). -/
structure ServerState where
  users : List (String × Cred)
  logs : List LogEntry
deriving DecidableEq, Repr

/-- The empty initial state the server creates when the files are
absent: `users.json` holds an empty object, `loginLogs.json` an empty
array. -/
def initialState : ServerState := ⟨[], []⟩

/-- Property names inherited by every plain JavaScript object from
`Object.prototype`; for each of these, `obj[name]` on an object without
an own property of that name yields a truthy value (a function, or for
`__proto__` the prototype object itself). -/
def protoKeys : List String :=
  ["constructor", "toString", "toLocaleString", "valueOf",
   "hasOwnProperty", "isPrototypeOf", "propertyIsEnumerable",
   "__proto__", "__defineGetter__", "__defineSetter__",
   "__lookupGetter__", "__lookupSetter__"]

/-- Result of the JavaScript property lookup `users[username]`. -/
inductive JsValue where
  /-- An own property: a credential record previously stored. -/
  | cred (c : Cred)
  /-- A property inherited from `Object.prototype` (truthy, but its
  `.passwordHash` field is `undefined`). -/
  | protoFn
  /-- No such property: the lookup yields `undefined` (falsy). -/
  | undefinedV
deriving DecidableEq, Repr

/-- JavaScript property lookup `users[username]`: own properties first
(the parsed JSON object), then `Object.prototype`. -/
def jsGet (users : List (String × Cred)) (u : String) : JsValue :=
  match users.lookup u with
  | some c => .cred c
  | none => if u ∈ protoKeys then .protoFn else .undefinedV

/-- Truthiness of the lookup result, as tested by `if (users[username])`
and `if (!user)`: credential records and inherited functions are truthy,
`undefined` is falsy. -/
def jsTruthy : JsValue → Bool
  | .cred _ => true
  | .protoFn => true
  | .undefinedV => false

/-- The fields of a JSON request body, each possibly absent. -/
structure ReqBody where
  username : Option String
  password : Option String
deriving DecidableEq, Repr

/-- The value of `req.body` as the handlers can see it. -/
inductive ReqBodyVal where
  /-- Body absent (`undefined` or `null`): falsy, so `req.body || \x7b\x7d`
  yields an empty object and both fields read as `undefined`. -/
  | absent
  /-- Body a truthy non-object (e.g. a number): destructuring yields
  `undefined` for both fields. -/
  | nonObject
  /-- Body an object with the given fields. -/
  | obj (fields : ReqBody)
deriving DecidableEq, Repr

/-- The `username` field extracted by
`const \x7b username, password \x7d = req.body || \x7b\x7d`. -/
def ReqBodyVal.getUsername : ReqBodyVal → Option String
  | .absent => none
  | .nonObject => none
  | .obj f => f.username

/-- The `password` field extracted by the same destructuring. -/
def ReqBodyVal.getPassword : ReqBodyVal → Option String
  | .absent => none
  | .nonObject => none
  | .obj f => f.password

/-- JavaScript truthiness of an optional string field: `!x` holds for a
missing field and for the empty string. -/
def fieldTruthy : Option String → Bool
  | none => false
  | some s => !s.isEmpty

/-- An HTTP response as produced by the handlers:
`res.status(n).json(\x7b success, message \x7d)` (the bare `res.json` has
status 200). -/
structure ApiResponse where
  status : Nat
  success : Bool
  message : String
deriving DecidableEq, Repr

/-- Outcome of a handler invocation: either a response was sent, or a
synchronous exception escaped the handler (Express then answers with its
default error handler instead of the handler's own response). -/
inductive Outcome where
  | resp (r : ApiResponse)
  | exn (msg : String)
deriving DecidableEq, Repr

/-- A file operation on the two persisted documents, recorded in the
order the handler performs it. -/
inductive FileOp where
  | readUsers
  | writeUsers
  | readLogs
  | writeLogs
deriving DecidableEq, Repr

/-- The full result of one handler invocation: its outcome, the state of
the persisted files afterwards, and the trace of file operations. -/
structure HandlerResult where
  outcome : Outcome
  state : ServerState
  trace : List FileOp
deriving DecidableEq, Repr

/-- The 400 response both handlers send for a missing field. -/
def badRequestResp : ApiResponse :=
  ⟨400, false, "Username and password are required"⟩

/-- The 409 response of the signup handler for an existing username. -/
def conflictResp : ApiResponse :=
  ⟨409, false, "Username already exists"⟩

/-- The 200 response of a successful signup. -/
def signupOkResp : ApiResponse :=
  ⟨200, true, "Signup successful"⟩

/-- The 401 response of the login handler, sent both for an unknown
username and for a wrong password. -/
def invalidCredsResp : ApiResponse :=
  ⟨401, false, "Invalid username or password"⟩

/-- The 200 response of a successful login. -/
def loginOkResp : ApiResponse :=
  ⟨200, true, "Login successful"⟩

/-- The message of the error thrown by `bcrypt.compareSync` when the
stored hash read as `undefined`. -/
def illegalArgsMsg : String := "Illegal arguments: string, undefined"

/-- The `POST /api/signup` handler.  `salt` stands for the value of
`bcrypt.genSaltSync(10)` and `createdAt` for
`new Date().toISOString()`, both supplied by the environment. -/
def signup (st : ServerState) (body : ReqBodyVal) (salt createdAt : String) :
    HandlerResult :=
  let username := body.getUsername
  let password := body.getPassword
  if !(fieldTruthy username && fieldTruthy password) then
    ⟨.resp badRequestResp, st, []⟩
  else
    let u := username.getD ""
    let p := password.getD ""
    -- const users = JSON.parse(fs.readFileSync(usersFile));
    if jsTruthy (jsGet st.users u) then
      ⟨.resp conflictResp, st, [.readUsers]⟩
    else
      let passwordHash := hashSync p salt
      -- users[u] = \x7b passwordHash, createdAt \x7d; assignment to an
      -- absent key appends in insertion order.
      let users := st.users ++ [(u, ⟨passwordHash, createdAt⟩)]
      ⟨.resp signupOkResp, ⟨users, st.logs⟩, [.readUsers, .writeUsers]⟩

/-- The `POST /api/login` handler.  `now` stands for
`new Date().toLocaleString()`. -/
def login (st : ServerState) (body : ReqBodyVal) (now : String) :
    HandlerResult :=
  let username := body.getUsername
  let password := body.getPassword
  if !(fieldTruthy username && fieldTruthy password) then
    ⟨.resp badRequestResp, st, []⟩
  else
    let u := username.getD ""
    let p := password.getD ""
    -- const users = JSON.parse(fs.readFileSync(usersFile));
    match jsGet st.users u with
    | .undefinedV =>
      ⟨.resp invalidCredsResp, st, [.readUsers]⟩
    | .protoFn =>
      -- user is truthy but user.passwordHash is undefined, so
      -- bcrypt.compareSync throws before anything is logged.
      ⟨.exn illegalArgsMsg, st, [.readUsers]⟩
    | .cred c =>
      let isValid := compareSync p c.passwordHash
      let entry : LogEntry := ⟨u, now, isValid⟩
      let logs := st.logs ++ [entry]
      let st' : ServerState := ⟨st.users, logs⟩
      if !isValid then
        ⟨.resp invalidCredsResp, st', [.readUsers, .readLogs, .writeLogs]⟩
      else
        ⟨.resp loginOkResp, st', [.readUsers, .readLogs, .writeLogs]⟩

/-- One API call together with its environment-supplied values. -/
inductive ApiCall where
  | signupCall (body : ReqBodyVal) (salt createdAt : String)
  | loginCall (body : ReqBodyVal) (now : String)
deriving DecidableEq, Repr

/-- The state after one call. -/
def stepState (st : ServerState) : ApiCall → ServerState
  | .signupCall b s t => (signup st b s t).state
  | .loginCall b n => (login st b n).state

/-- The state after a sequence of calls. -/
def runCalls (st : ServerState) : List ApiCall → ServerState
  | [] => st
  | c :: cs => runCalls (stepState st c) cs

/-! ## Client-side simulation frontend -/

/-- An observable step performed by the simulation frontend's submit
handlers. -/
inductive UiEvent where
  | setErrorEvt (s : String)
  | setLoadingEvt (b : Bool)
  | delayEvt (ms : Nat)
  | networkEvt (url : String)
  | successEvt (username : String)
deriving DecidableEq, Repr

/-- The `LoginForm.submit` handler of the client-side simulation: it
clears the error, sets loading, waits 300 ms, calls
`onSuccess(\x7b username \x7d)`, and finally clears loading.  The `try`
block contains no operation that can throw, so the catch branch is
unreachable; no network request is made and the password is never
read. -/
def loginFormSubmit (username : String) (_password : String) : List UiEvent :=
  [.setErrorEvt "", .setLoadingEvt true, .delayEvt 300,
   .successEvt username, .setLoadingEvt false]

/-- Local UI state of the `App` component. -/
structure AppState where
  view : String
  user : Option String
deriving DecidableEq, Repr

/-- `App.handleAuthSuccess`: store the user and switch to the dashboard
view. -/
def handleAuthSuccess (_st : AppState) (u : String) : AppState :=
  ⟨"dashboard", some u⟩

/-! ## Shared helper lemmas -/

/-- A falsy lookup means no own property: every stored credential record
is truthy, so `users[u]` can only be falsy when `u` has no entry. -/
theorem lookup_eq_none_of_not_truthy {users : List (String × Cred)} {u : String}
    (h : jsTruthy (jsGet users u) = false) : users.lookup u = none := by
  unfold jsGet at h
  cases hl : users.lookup u with
  | none => rfl
  | some c => rw [hl] at h; simp [jsTruthy] at h

/-- A falsy lookup also means the name is not an `Object.prototype`
property. -/
theorem not_proto_of_not_truthy {users : List (String × Cred)} {u : String}
    (h : jsTruthy (jsGet users u) = false) : u ∉ protoKeys := by
  intro hmem
  unfold jsGet at h
  rw [lookup_eq_none_of_not_truthy h] at h
  simp [hmem, jsTruthy] at h

/-- Looking a key up in an appended association list skips a first list
that does not contain it. -/
theorem lookup_append_of_eq_none {α β : Type} [BEq α] (l1 l2 : List (α × β))
    (a : α) (h : l1.lookup a = none) : (l1 ++ l2).lookup a = l2.lookup a := by
  induction l1 with
  | nil => rfl
  | cons hd tl ih =>
    rw [List.cons_append]
    cases hd with
    | mk k v =>
      simp only [List.lookup] at h ⊢
      cases hk : a == k with
      | true => rw [hk] at h; simp at h
      | false => rw [hk] at h; exact ih h

/-- The signup handler either leaves the state untouched or appends one
credential record for a username that had no record, leaving the attempt
log alone. -/
theorem signup_state_cases (st : ServerState) (b : ReqBodyVal) (salt t : String) :
    (signup st b salt t).state = st ∨
    ∃ u c, st.users.lookup u = none ∧
      (signup st b salt t).state = ⟨st.users ++ [(u, c)], st.logs⟩ := by
  unfold signup
  by_cases h1 : (fieldTruthy b.getUsername && fieldTruthy b.getPassword) = false
  · left; simp [h1]
  · rw [Bool.not_eq_false] at h1
    by_cases h2 : jsTruthy (jsGet st.users (b.getUsername.getD "")) = true
    · left; simp [h1, h2]
    · right
      rw [Bool.not_eq_true] at h2
      refine ⟨b.getUsername.getD "",
        ⟨hashSync (b.getPassword.getD "") salt, t⟩,
        lookup_eq_none_of_not_truthy h2, ?_⟩
      simp [h1, h2]

/-- The login handler either leaves the state untouched or appends to
the log exactly one entry whose username and date are the request's
username and the current time, leaving the credential store alone. -/
theorem login_state_cases (st : ServerState) (b : ReqBodyVal) (n : String) :
    (login st b n).state = st ∨
    ∃ valid : Bool, (login st b n).state
      = ⟨st.users, st.logs ++ [⟨b.getUsername.getD "", n, valid⟩]⟩ := by
  unfold login
  by_cases h1 : (fieldTruthy b.getUsername && fieldTruthy b.getPassword) = false
  · left; simp [h1]
  · rw [Bool.not_eq_false] at h1
    cases hget : jsGet st.users (b.getUsername.getD "") with
    | cred c =>
      right
      refine ⟨compareSync (b.getPassword.getD "") c.passwordHash, ?_⟩
      by_cases hv : compareSync (b.getPassword.getD "") c.passwordHash = true
      · simp [h1, hget, hv]
      · rw [Bool.not_eq_true] at hv
        simp [h1, hget, hv]
    | protoFn => left; simp [h1, hget]
    | undefinedV => left; simp [h1, hget]

/-! ## Claim theorems -/

/-- C8: in the pure client-side simulation frontend, the login form's
submit handler succeeds for every input: it performs no network call
and, after a 300 ms delay, invokes the success callback with the typed
username, after which `App.handleAuthSuccess` switches to the dashboard
view. -/
theorem loginFormSubmit_always_succeeds (u p : String) (st : AppState) :
    (∀ url, UiEvent.networkEvt url ∉ loginFormSubmit u p) ∧
    UiEvent.delayEvt 300 ∈ loginFormSubmit u p ∧
    UiEvent.successEvt u ∈ loginFormSubmit u p ∧
    (handleAuthSuccess st u).view = "dashboard" ∧
    (handleAuthSuccess st u).user = some u := by
  refine ⟨?_, ?_, ?_, rfl, rfl⟩
  · intro url
    simp [loginFormSubmit]
  · simp [loginFormSubmit]
  · simp [loginFormSubmit]

/-- C9: on the empty credential store, the lookup `users[u]` is truthy
exactly for the property names inherited from `Object.prototype`; for
such a name (here `constructor`), signup answers 409 without creating a
record, and login does not take the unknown-user 401 branch but reaches
the hash comparison on an `undefined` stored hash, which throws. -/
theorem proto_names_shadow_empty_store :
    (∀ u : String, jsTruthy (jsGet initialState.users u) = decide (u ∈ protoKeys)) ∧
    signup initialState (.obj ⟨some "constructor", some "pw"⟩) "s1" "t1"
      = ⟨.resp conflictResp, initialState, [.readUsers]⟩ ∧
    login initialState (.obj ⟨some "constructor", some "pw"⟩) "n1"
      = ⟨.exn illegalArgsMsg, initialState, [.readUsers]⟩ := by
  refine ⟨?_, by decide, by decide⟩
  intro u
  unfold jsGet initialState
  by_cases h : u ∈ protoKeys
  · simp [h, jsTruthy, List.lookup]
  · simp [h, jsTruthy, List.lookup]

/-- C10: a request whose body is entirely absent or not an object does
not crash either handler: both fields read as missing, so the request is
answered with the 400 validation response, with no file touched. -/
theorem degenerate_body_gives_400 (st : ServerState) (salt t n : String) :
    signup st .absent salt t = ⟨.resp badRequestResp, st, []⟩ ∧
    signup st .nonObject salt t = ⟨.resp badRequestResp, st, []⟩ ∧
    login st .absent n = ⟨.resp badRequestResp, st, []⟩ ∧
    login st .nonObject n = ⟨.resp badRequestResp, st, []⟩ :=
  ⟨rfl, rfl, rfl, rfl⟩

/-- C5: a register or authenticate call in which username or password is
missing or empty returns the 400 validation failure with an empty file
trace — neither persisted document is read or written — and the state is
unchanged. -/
theorem missing_field_no_storage_access (st : ServerState) (b : ReqBodyVal)
    (salt t n : String)
    (h : fieldTruthy b.getUsername = false ∨ fieldTruthy b.getPassword = false) :
    signup st b salt t = ⟨.resp badRequestResp, st, []⟩ ∧
    login st b n = ⟨.resp badRequestResp, st, []⟩ := by
  have hc : (fieldTruthy b.getUsername && fieldTruthy b.getPassword) = false := by
    rcases h with h | h <;> simp [h]
  constructor
  · unfold signup; simp [hc]
  · unfold login; simp [hc]

/-- C5 witness: an empty username field on each operation answers 400
and leaves the state and files untouched. -/
theorem missing_field_no_storage_access_witness :
    (fieldTruthy (ReqBodyVal.obj ⟨some "", some "x"⟩).getUsername = false ∨
      fieldTruthy (ReqBodyVal.obj ⟨some "", some "x"⟩).getPassword = false) ∧
    signup initialState (.obj ⟨some "", some "x"⟩) "s1" "t1"
      = ⟨.resp badRequestResp, initialState, []⟩ ∧
    login initialState (.obj ⟨some "", some "x"⟩) "n1"
      = ⟨.resp badRequestResp, initialState, []⟩ := by
  have h := missing_field_no_storage_access initialState
    (.obj ⟨some "", some "x"⟩) "s1" "t1" "n1" (Or.inl (by decide))
  exact ⟨Or.inl (by decide), h.1, h.2⟩

/-- A non-empty string is a truthy field. -/
theorem fieldTruthy_of_ne {s : String} (h : s ≠ "") : fieldTruthy (some s) = true := by
  cases hb : s.isEmpty with
  | false => simp [fieldTruthy, hb]
  | true => exact absurd ((String.isEmpty_iff s).mp hb) h

/-- A demo credential record for the username `alice`. -/
def aliceCred : Cred := ⟨hashSync "secret1" "saltA", "t0"⟩

/-- A demo store holding only the `alice` record. -/
def aliceStore : ServerState := ⟨[("alice", aliceCred)], []⟩

/-- C1 counterexample: the username `constructor` is non-empty and not
present in the empty credential store, yet registering it fails with the
409 conflict response rather than succeeding. -/
theorem register_unregistered_name_fails :
    ("constructor" : String) ≠ "" ∧
    initialState.users.lookup "constructor" = none ∧
    (signup initialState (.obj ⟨some "constructor", some "hunter2"⟩) "s2" "t2").outcome
      = .resp conflictResp := by decide

/-- C1 (amended): for a non-empty username whose JavaScript lookup in
the store is falsy — no own record and not an `Object.prototype`
property name — and a non-empty password, signup succeeds and a
subsequent login with the same password succeeds. -/
theorem register_then_login_succeeds (st : ServerState) (u p salt t now : String)
    (hu : u ≠ "") (hp : p ≠ "")
    (habs : jsTruthy (jsGet st.users u) = false) :
    (signup st (.obj ⟨some u, some p⟩) salt t).outcome = .resp signupOkResp ∧
    (login (signup st (.obj ⟨some u, some p⟩) salt t).state
      (.obj ⟨some u, some p⟩) now).outcome = .resp loginOkResp := by
  have hu' : fieldTruthy (some u) = true := fieldTruthy_of_ne hu
  have hp' : fieldTruthy (some p) = true := fieldTruthy_of_ne hp
  have hsign : signup st (.obj ⟨some u, some p⟩) salt t
      = ⟨.resp signupOkResp,
         ⟨st.users ++ [(u, ⟨hashSync p salt, t⟩)], st.logs⟩,
         [.readUsers, .writeUsers]⟩ := by
    unfold signup
    simp [ReqBodyVal.getUsername, ReqBodyVal.getPassword, hu', hp', habs]
  refine ⟨by rw [hsign], ?_⟩
  rw [hsign]
  have hlook : (st.users ++ [(u, (⟨⟨salt, p⟩, t⟩ : Cred))]).lookup u
      = some ⟨⟨salt, p⟩, t⟩ := by
    rw [lookup_append_of_eq_none _ _ _ (lookup_eq_none_of_not_truthy habs)]
    simp [List.lookup]
  unfold login
  simp [ReqBodyVal.getUsername, ReqBodyVal.getPassword, hu', hp', jsGet, hlook,
    compareSync, hashSync]

/-- C1 witness: registering `alice` with password `secret1` on the empty
store and then logging in with the same password both succeed. -/
theorem register_then_login_succeeds_witness :
    ("alice" : String) ≠ "" ∧ ("secret1" : String) ≠ "" ∧
    jsTruthy (jsGet initialState.users "alice") = false ∧
    (signup initialState (.obj ⟨some "alice", some "secret1"⟩) "s1" "t1").outcome
      = .resp signupOkResp ∧
    (login (signup initialState (.obj ⟨some "alice", some "secret1"⟩) "s1" "t1").state
      (.obj ⟨some "alice", some "secret1"⟩) "n1").outcome = .resp loginOkResp := by
  have h := register_then_login_succeeds initialState "alice" "secret1" "s1" "t1" "n1"
    (by decide) (by decide) (by decide)
  exact ⟨by decide, by decide, by decide, h.1, h.2⟩

/-- C3 counterexample: signup with the username `toString`, which is not
present in the empty credential store, still answers 409 — so the 409
response is not equivalent to the username being present. -/
theorem signup_conflict_for_absent_name :
    initialState.users.lookup "toString" = none ∧
    (signup initialState (.obj ⟨some "toString", some "pw3"⟩) "s3" "t3").outcome
      = .resp conflictResp ∧
    (signup initialState (.obj ⟨some "toString", some "pw3"⟩) "s3" "t3").state
      = initialState := by decide

/-- C3 (amended): with non-empty fields, signup answers 409 exactly when
the JavaScript lookup `users[username]` is truthy — an own record or an
`Object.prototype` property name — and on such a conflict the state is
unchanged, so the first record registered under the name is
preserved. -/
theorem signup_conflict_iff_truthy (st : ServerState) (u p salt t : String)
    (hu : u ≠ "") (hp : p ≠ "") :
    ((signup st (.obj ⟨some u, some p⟩) salt t).outcome = .resp conflictResp
      ↔ jsTruthy (jsGet st.users u) = true) ∧
    (jsTruthy (jsGet st.users u) = true →
      (signup st (.obj ⟨some u, some p⟩) salt t).state = st) := by
  have hu' : fieldTruthy (some u) = true := fieldTruthy_of_ne hu
  have hp' : fieldTruthy (some p) = true := fieldTruthy_of_ne hp
  by_cases ht : jsTruthy (jsGet st.users u) = true
  · constructor
    · unfold signup
      simp [ReqBodyVal.getUsername, ReqBodyVal.getPassword, hu', hp', ht]
    · intro _
      unfold signup
      simp [ReqBodyVal.getUsername, ReqBodyVal.getPassword, hu', hp', ht]
  · rw [Bool.not_eq_true] at ht
    constructor
    · unfold signup
      simp [ReqBodyVal.getUsername, ReqBodyVal.getPassword, hu', hp', ht]
      decide
    · intro hcontra
      rw [ht] at hcontra
      exact absurd hcontra (by decide)

/-- C3 witness: registering `alice` again on the store that already
holds `alice` answers 409 and leaves the store unchanged. -/
theorem signup_conflict_iff_truthy_witness :
    ("alice" : String) ≠ "" ∧ ("pw4" : String) ≠ "" ∧
    jsTruthy (jsGet aliceStore.users "alice") = true ∧
    (signup aliceStore (.obj ⟨some "alice", some "pw4"⟩) "s4" "t4").outcome
      = .resp conflictResp ∧
    (signup aliceStore (.obj ⟨some "alice", some "pw4"⟩) "s4" "t4").state
      = aliceStore := by
  have h := signup_conflict_iff_truthy aliceStore "alice" "pw4" "s4" "t4"
    (by decide) (by decide)
  exact ⟨by decide, by decide, by decide, h.1.mpr (by decide), h.2 (by decide)⟩

/-- C4 counterexample: `constructor` is absent from the store holding
only `alice`, yet authenticating it yields a thrown exception, not the
401 response that a wrong password for `alice` yields — so the two
failure responses are not identical for every absent username. -/
theorem absent_username_response_differs :
    aliceStore.users.lookup "constructor" = none ∧
    (login aliceStore (.obj ⟨some "constructor", some "x"⟩) "n4").outcome
      = .exn illegalArgsMsg ∧
    (login aliceStore (.obj ⟨some "alice", some "wrong"⟩) "n4").outcome
      = .resp invalidCredsResp ∧
    Outcome.exn illegalArgsMsg ≠ .resp invalidCredsResp := by decide

/-- C4 (amended): for a username whose JavaScript lookup yields
`undefined` — absent from the store and not an `Object.prototype`
property name — and for a present username with a wrong password, login
produces the very same 401 response (status, error kind and message),
so the response does not reveal which factor was wrong. -/
theorem login_failure_response_uniform (st : ServerState) (now : String) :
    (∀ u p, u ≠ "" → p ≠ "" → jsGet st.users u = .undefinedV →
      (login st (.obj ⟨some u, some p⟩) now).outcome = .resp invalidCredsResp) ∧
    (∀ u p c, u ≠ "" → p ≠ "" → jsGet st.users u = .cred c →
      compareSync p c.passwordHash = false →
      (login st (.obj ⟨some u, some p⟩) now).outcome = .resp invalidCredsResp) := by
  constructor
  · intro u p hu hp hget
    unfold login
    simp [ReqBodyVal.getUsername, ReqBodyVal.getPassword,
      fieldTruthy_of_ne hu, fieldTruthy_of_ne hp, hget]
  · intro u p c hu hp hget hcmp
    unfold login
    simp [ReqBodyVal.getUsername, ReqBodyVal.getPassword,
      fieldTruthy_of_ne hu, fieldTruthy_of_ne hp, hget, hcmp]

/-- C4 witness: on the store holding only `alice`, logging in as the
unknown `bob` and logging in as `alice` with a wrong password both
answer the same 401 response. -/
theorem login_failure_response_uniform_witness :
    (login aliceStore (.obj ⟨some "bob", some "pw"⟩) "n5").outcome
      = .resp invalidCredsResp ∧
    (login aliceStore (.obj ⟨some "alice", some "wrong"⟩) "n5").outcome
      = .resp invalidCredsResp :=
  ⟨(login_failure_response_uniform aliceStore "n5").1 "bob" "pw"
    (by decide) (by decide) (by decide),
   (login_failure_response_uniform aliceStore "n5").2 "alice" "wrong" aliceCred
    (by decide) (by decide) (by decide) (by decide)⟩

/-- C2 counterexample: authenticating the unknown username `bob` (both
fields non-empty) appends no Attempt Log Entry at all: the handler
returns 401 before touching the log file, so it is not the case that
every authenticate call appends exactly one entry. -/
theorem unknown_user_attempt_not_logged :
    ("bob" : String) ≠ "" ∧ ("x" : String) ≠ "" ∧
    login initialState (.obj ⟨some "bob", some "x"⟩) "n6"
      = ⟨.resp invalidCredsResp, initialState, [.readUsers]⟩ ∧
    (login initialState (.obj ⟨some "bob", some "x"⟩) "n6").state.logs.length = 0 := by
  decide

/-- C2 (amended): an authenticate call with non-empty fields appends
exactly one entry — recording the username, the current timestamp, and
the boolean outcome, at the end of the log, so entry order matches call
order — precisely when the username has an own credential record; when
the lookup yields `undefined` (401 without logging) or an inherited
prototype property (exception before logging) the log is unchanged. -/
theorem login_logging_behavior (st : ServerState) (u p now : String)
    (hu : u ≠ "") (hp : p ≠ "") :
    (∀ c, jsGet st.users u = .cred c →
      (login st (.obj ⟨some u, some p⟩) now).state.logs
        = st.logs ++ [⟨u, now, compareSync p c.passwordHash⟩]) ∧
    (jsGet st.users u = .undefinedV →
      (login st (.obj ⟨some u, some p⟩) now).state = st) ∧
    (jsGet st.users u = .protoFn →
      (login st (.obj ⟨some u, some p⟩) now).state = st) := by
  refine ⟨?_, ?_, ?_⟩
  · intro c hget
    unfold login
    by_cases hv : compareSync p c.passwordHash = true
    · simp [ReqBodyVal.getUsername, ReqBodyVal.getPassword,
        fieldTruthy_of_ne hu, fieldTruthy_of_ne hp, hget, hv]
    · rw [Bool.not_eq_true] at hv
      simp [ReqBodyVal.getUsername, ReqBodyVal.getPassword,
        fieldTruthy_of_ne hu, fieldTruthy_of_ne hp, hget, hv]
  · intro hget
    unfold login
    simp [ReqBodyVal.getUsername, ReqBodyVal.getPassword,
      fieldTruthy_of_ne hu, fieldTruthy_of_ne hp, hget]
  · intro hget
    unfold login
    simp [ReqBodyVal.getUsername, ReqBodyVal.getPassword,
      fieldTruthy_of_ne hu, fieldTruthy_of_ne hp, hget]

/-- C2 witness: on the store holding only `alice`, a login as `alice`
with the right password appends exactly the one successful entry, and a
login as the unknown `bob` leaves the state unchanged. -/
theorem login_logging_behavior_witness :
    (login aliceStore (.obj ⟨some "alice", some "secret1"⟩) "n7").state.logs
      = aliceStore.logs ++ [⟨"alice", "n7", compareSync "secret1" aliceCred.passwordHash⟩] ∧
    (login aliceStore (.obj ⟨some "bob", some "x"⟩) "n7").state = aliceStore :=
  ⟨(login_logging_behavior aliceStore "alice" "secret1" "n7"
      (by decide) (by decide)).1 aliceCred (by decide),
   (login_logging_behavior aliceStore "bob" "x" "n7"
      (by decide) (by decide)).2.1 (by decide)⟩

/-- An attempt log entry mentions a string when one of its two string
fields equals it. -/
def LogEntry.mentions (e : LogEntry) (s : String) : Bool :=
  e.username == s || e.date == s

/-- The strings a call can place into the attempt log: a signup call
never writes the log; a login call can write only its request username
and its timestamp. -/
def ApiCall.canLog (c : ApiCall) (s : String) : Bool :=
  match c with
  | .signupCall _ _ _ => false
  | .loginCall b n => b.getUsername.getD "" == s || n == s

/-- One step preserves the absence of a string from the attempt log,
provided the call cannot log that string. -/
theorem stepState_mentions (st : ServerState) (c : ApiCall) (p : String)
    (h0 : ∀ e ∈ st.logs, e.mentions p = false) (hc : c.canLog p = false) :
    ∀ e ∈ (stepState st c).logs, e.mentions p = false := by
  cases c with
  | signupCall b salt t =>
    intro e he
    simp only [stepState] at he
    rcases signup_state_cases st b salt t with h | ⟨u, cr, _, h⟩ <;>
      · rw [h] at he
        exact h0 e he
  | loginCall b n =>
    intro e he
    simp only [stepState] at he
    rcases login_state_cases st b n with h | ⟨v, h⟩
    · rw [h] at he
      exact h0 e he
    · rw [h] at he
      rcases List.mem_append.mp he with h1 | h1
      · exact h0 e h1
      · rw [List.mem_singleton] at h1
        subst h1
        simp only [ApiCall.canLog, Bool.or_eq_false_iff] at hc
        simp [LogEntry.mentions, hc.1, hc.2]

/-- C6: the attempt log never contains a password: every entry holds
only a username string, a timestamp string and a success boolean (the
`LogEntry` type), and after any sequence of register and authenticate
calls, a string that differs from every request username, every supplied
timestamp, and every string already in the initial log — in particular
any plaintext password — appears in no field of any persisted log
entry. -/
theorem password_never_in_attempt_log (st : ServerState) (calls : List ApiCall)
    (p : String)
    (h0 : ∀ e ∈ st.logs, e.mentions p = false)
    (hc : ∀ c ∈ calls, c.canLog p = false) :
    ∀ e ∈ (runCalls st calls).logs, e.mentions p = false := by
  revert h0 hc
  induction calls generalizing st with
  | nil => exact fun h0 _ => h0
  | cons c cs ih =>
    intro h0 hc
    exact ih (stepState st c)
      (stepState_mentions st c p h0 (hc c (by simp)))
      (fun c' hc' => hc c' (by simp [hc']))

/-- A demo sequence: register `alice`, log in correctly, log in with a
wrong password. -/
def demoCalls : List ApiCall :=
  [.signupCall (.obj ⟨some "alice", some "secret1"⟩) "s1" "t1",
   .loginCall (.obj ⟨some "alice", some "secret1"⟩) "n1",
   .loginCall (.obj ⟨some "alice", some "wrong"⟩) "n2"]

/-- C6 witness: after registering `alice` with password `secret1` and
two login attempts, no field of any persisted log entry equals the
password `secret1`. -/
theorem password_never_in_attempt_log_witness :
    ((runCalls initialState demoCalls).logs.all
      fun e => e.mentions "secret1" == false) = true := by
  have h := password_never_in_attempt_log initialState demoCalls "secret1"
    (by decide) (by decide)
  rw [List.all_eq_true]
  intro e he
  simp [h e he]

/-- C7: every exposed operation preserves the state it does not create:
signup never touches the attempt log and either leaves the credential
store unchanged or appends one record under a username that had no
record (never updating or deleting an existing one); login never changes
the credential store and either leaves the attempt log unchanged or
appends exactly one entry at its end, leaving all existing entries in
place. -/
theorem handlers_preserve_existing_state (st : ServerState) (b : ReqBodyVal)
    (salt t n : String) :
    (signup st b salt t).state.logs = st.logs ∧
    ((signup st b salt t).state.users = st.users ∨
      ∃ u c, st.users.lookup u = none ∧
        (signup st b salt t).state.users = st.users ++ [(u, c)]) ∧
    (login st b n).state.users = st.users ∧
    ((login st b n).state.logs = st.logs ∨
      ∃ e, (login st b n).state.logs = st.logs ++ [e]) := by
  refine ⟨?_, ?_, ?_, ?_⟩
  · rcases signup_state_cases st b salt t with h | ⟨u, c, _, h⟩ <;> rw [h]
  · rcases signup_state_cases st b salt t with h | ⟨u, c, hn, h⟩
    · left; rw [h]
    · right; exact ⟨u, c, hn, by rw [h]⟩
  · rcases login_state_cases st b n with h | ⟨v, h⟩ <;> rw [h]
  · rcases login_state_cases st b n with h | ⟨v, h⟩
    · left; rw [h]
    · right; exact ⟨_, by rw [h]⟩
